import Mathlib

/-!
Verification of the AI-call resilience / caching / response-normalization
subsystem of the PathPilot backend (FastCampus builderthon repository).

The Lean definitions below are a shallow embedding of the Python source:

* `src/backend/src/api/retry_wrapper.py` — `retry_with_backoff` built on
  tenacity's `stop_after_attempt` / `wait_exponential` (the tenacity wait
  arithmetic is itself embedded, since the library call determines the
  observable backoff schedule);
* `src/backend/src/services/gemini_client.py` — `_parse_analysis_response`,
  the tolerant structured-output normalizer, together with the metadata
  enrichment done by `analyze_resume_text`;
* `src/backend/src/services/resume_service.py` — `_validate_file`,
  `_get_cached_resume` and the `upload_and_analyze_resume` orchestration;
* `src/backend/src/models/resume.py` — `Resume.compute_file_hash` (SHA-256,
  embedded bit-for-bit from FIPS 180-4, which is what `hashlib.sha256` computes);
* `src/backend/src/services/interview_service.py` — `_evaluate_with_gemini`
  response normalization, `_get_fallback_questions`, and the question-count
  clamp of `generate_interview`.

Python dictionaries are modelled as insertion-ordered association lists with
unique keys, Python byte strings as `List Nat`, JSON numbers as `ℚ` (every
numeric literal appearing in the verified scenarios is exactly representable),
and exceptions as an explicit `Except` error channel.
-/

/-- The Python exceptions that the embedded code can raise or catch.
`jsonDecodeError` is the only exception caught by the normalizers; the rest
propagate.  `retryFailureErr` models tenacity's `RetryError`, which wraps the
exception of the last failed attempt. -/
inductive PyErr where
  | jsonDecodeError (msg : String)
  | typeError (msg : String)
  | valueError (msg : String)
  | attributeError (msg : String)
  | overflowError (msg : String)
  | retryFailureErr (last : PyErr)

/-- A short rendering of an exception, standing in for Python's `str(e)`.
Only non-emptiness and the wrapping structure matter to the theorems. -/
def pyErrStr : PyErr → String
  | .jsonDecodeError m => m
  | .typeError m => m
  | .valueError m => m
  | .attributeError m => m
  | .overflowError m => m
  | .retryFailureErr e => "RetryError[" ++ pyErrStr e ++ "]"

/-- Python `str.strip()` whitespace (the ASCII part, which covers every input
exercised here). -/
def isPyspace (c : Char) : Bool :=
  c == ' ' || c == '\t' || c == '\n' || c == '\r' || c == '\x0b' || c == '\x0c'

/-- Python `s.strip()`. -/
def pyStrip (s : String) : String :=
  ⟨((s.data.dropWhile isPyspace).reverse.dropWhile isPyspace).reverse⟩

/-- Does `l` begin with `p`? (Char-list core of `str.startswith`.) -/
def listHasLead : List Char → List Char → Bool
  | [], _ => true
  | _, [] => false
  | p :: ps, c :: cs => p == c && listHasLead ps cs

/-- Python `s.startswith(pat)`. -/
def pyStartsWith (s pat : String) : Bool :=
  listHasLead pat.data s.data

/-- Python `s.endswith(pat)`. -/
def pyEndsWith (s pat : String) : Bool :=
  listHasLead pat.data.reverse s.data.reverse

/-- Python `s[n:]`. -/
def pyDropLeft (s : String) (n : Nat) : String :=
  ⟨s.data.drop n⟩

/-- Python `s[:-n]` for `n ≤ len(s)` (the only way the source uses it). -/
def pyDropRight (s : String) (n : Nat) : String :=
  ⟨s.data.take (s.data.length - n)⟩

/-- Index of the first occurrence of `pat` in `hay`, scanning left to right. -/
def listFindSub (pat : List Char) : List Char → Option Nat
  | [] => if pat.isEmpty then some 0 else none
  | c :: cs =>
    if listHasLead pat (c :: cs) then some 0
    else (listFindSub pat cs).map (· + 1)

/-- Python `pat in s` for strings (substring containment). -/
def strContains (s pat : String) : Bool :=
  (listFindSub pat.data s.data).isSome

/-- The text after the first occurrence of `pat` (whole string if absent);
the core of `s.split(pat)[1]` when a following `split(sep)[0]` cut is applied
by `strBeforeFirst`. -/
def strAfterFirst (s pat : String) : String :=
  match listFindSub pat.data s.data with
  | some i => ⟨s.data.drop (i + pat.data.length)⟩
  | none => s

/-- The text before the first occurrence of `pat` (whole string if absent):
Python `s.split(pat)[0]`. -/
def strBeforeFirst (s pat : String) : String :=
  match listFindSub pat.data s.data with
  | some i => ⟨s.data.take i⟩
  | none => s

/-- Python ASCII `str.lower()` (file extensions are the only lowered text). -/
def pyLower (s : String) : String :=
  ⟨s.data.map Char.toLower⟩

/-- JSON values as decoded by Python's `json.loads`: objects keep insertion
order, numbers collapse to `ℚ`, and the non-finite literals Python accepts
(`NaN`, `Infinity`, `-Infinity`) get their own constructors. -/
inductive JValue where
  | jnull
  | jbool (b : Bool)
  | jnum (q : ℚ)
  | jnan
  | jinf (neg : Bool)
  | jstr (s : String)
  | jarr (xs : List JValue)
  | jobj (kvs : List (String × JValue))

/-- A decoded JSON object / Python dict: insertion-ordered key-value pairs. -/
abbrev PyDict := List (String × JValue)

/-- Python `k in d` for a dict. -/
def dictContainsKey : PyDict → String → Bool
  | [], _ => false
  | (k0, _) :: rest, k => k0 == k || dictContainsKey rest k

/-- Python `d[k] = v`: update the first binding in place, else append. -/
def dictSet : PyDict → String → JValue → PyDict
  | [], k, v => [(k, v)]
  | (k0, v0) :: rest, k, v =>
    if k0 == k then (k0, v) :: rest else (k0, v0) :: dictSet rest k v

/-- Python `d.get(k, dflt)`. -/
def dictGet (d : PyDict) (k : String) (dflt : JValue) : JValue :=
  match d.find? (fun p => p.1 == k) with
  | some p => p.2
  | none => dflt

/-- Python `x == k` where `k` is a string: only equal strings compare equal. -/
def jvalueEqStr (x : JValue) (k : String) : Bool :=
  match x with
  | .jstr t => t == k
  | _ => false

/-- Python `k in x` for a decoded JSON value: key membership for dicts,
element equality for lists, substring test for strings; everything else
raises `TypeError`, exactly as CPython does. -/
def pyContains (x : JValue) (k : String) : Except PyErr Bool :=
  match x with
  | .jobj d => .ok (dictContainsKey d k)
  | .jarr xs => .ok (xs.any (fun y => jvalueEqStr y k))
  | .jstr s => .ok (strContains s k)
  | _ => .error (.typeError "argument of type is not iterable")

/-- Python `x[k] = v` with a string key: succeeds only on dicts; lists and
strings raise `TypeError` as CPython does. -/
def pySetItem (x : JValue) (k : String) (v : JValue) : Except PyErr JValue :=
  match x with
  | .jobj d => .ok (.jobj (dictSet d k v))
  | .jarr _ => .error (.typeError "list indices must be integers or slices, not str")
  | .jstr _ => .error (.typeError "str object does not support item assignment")
  | _ => .error (.typeError "object does not support item assignment")

/-- JSON whitespace, the exact set `json.loads` skips. -/
def isJsonWs (c : Char) : Bool :=
  c == ' ' || c == '\t' || c == '\n' || c == '\r'

/-- Value of a hex digit. -/
def hexVal (c : Char) : Option Nat :=
  if '0' ≤ c && c ≤ '9' then some (c.toNat - 48)
  else if 'a' ≤ c && c ≤ 'f' then some (c.toNat - 87)
  else if 'A' ≤ c && c ≤ 'F' then some (c.toNat - 55)
  else none

/-- Read four hex digits (the payload of a `\uXXXX` escape). -/
def parseHex4 (cs : List Char) : Option (Nat × List Char) :=
  match cs with
  | a :: b :: c :: d :: rest =>
    match hexVal a, hexVal b, hexVal c, hexVal d with
    | some x, some y, some z, some w => some (((x * 16 + y) * 16 + z) * 16 + w, rest)
    | _, _, _, _ => none
  | _ => none

/-- Body of a JSON string literal, after the opening quote.  Handles the JSON
escapes and surrogate pairs; an unpaired surrogate (which CPython would keep
as a lone surrogate code unit, a thing a Lean `Char` cannot hold) is mapped to
U+FFFD — no input exercised by the claims contains one.  Strict mode: raw
control characters are rejected, as `json.loads` does. -/
def parseStringBody : Nat → List Char → List Char → Except String (String × List Char)
  | 0, _, _ => .error "string fuel exhausted"
  | _ + 1, [], _ => .error "Unterminated string"
  | _ + 1, '"' :: rest, acc => .ok (⟨acc.reverse⟩, rest)
  | fuel + 1, '\\' :: e :: rest, acc =>
    match e with
    | '"' => parseStringBody fuel rest ('"' :: acc)
    | '\\' => parseStringBody fuel rest ('\\' :: acc)
    | '/' => parseStringBody fuel rest ('/' :: acc)
    | 'b' => parseStringBody fuel rest ('\x08' :: acc)
    | 'f' => parseStringBody fuel rest ('\x0c' :: acc)
    | 'n' => parseStringBody fuel rest ('\n' :: acc)
    | 'r' => parseStringBody fuel rest ('\r' :: acc)
    | 't' => parseStringBody fuel rest ('\t' :: acc)
    | 'u' =>
      match parseHex4 rest with
      | none => .error "Invalid uXXXX escape"
      | some (h, r1) =>
        if 0xD800 ≤ h && h ≤ 0xDBFF then
          match r1 with
          | '\\' :: 'u' :: r2 =>
            match parseHex4 r2 with
            | some (l, r3) =>
              if 0xDC00 ≤ l && l ≤ 0xDFFF then
                parseStringBody fuel r3
                  (Char.ofNat (0x10000 + (h - 0xD800) * 0x400 + (l - 0xDC00)) :: acc)
              else parseStringBody fuel r1 ('\ufffd' :: acc)
            | none => parseStringBody fuel r1 ('\ufffd' :: acc)
          | _ => parseStringBody fuel r1 ('\ufffd' :: acc)
        else if 0xDC00 ≤ h && h ≤ 0xDFFF then parseStringBody fuel r1 ('\ufffd' :: acc)
        else parseStringBody fuel r1 (Char.ofNat h :: acc)
    | _ => .error "Invalid escape"
  | fuel + 1, c :: rest, acc =>
    if c.toNat < 0x20 then .error "Invalid control character"
    else parseStringBody fuel rest (c :: acc)

/-- Decimal digits to a natural number. -/
def digitsToNat (ds : List Char) : Nat :=
  ds.foldl (fun n c => n * 10 + (c.toNat - 48)) 0

/-- Fraction and exponent parts of a JSON number, then assembly into `ℚ`. -/
def parseNumberTail (sign : Bool) (ip : Nat) (cs : List Char) : Except String (JValue × List Char) :=
  let fracPart : List Char × List Char :=
    match cs with
    | '.' :: r =>
      let fd := r.takeWhile Char.isDigit
      if fd.isEmpty then ([], cs) else (fd, r.drop fd.length)
    | _ => ([], cs)
  let fd := fracPart.1
  let cs2 := fracPart.2
  let expPart : Option (Bool × Nat) × List Char :=
    match cs2 with
    | e :: r =>
      if e == 'e' || e == 'E' then
        let esign : Bool := match r with
          | '-' :: _ => true
          | _ => false
        let r1 := match r with
          | '-' :: rr => rr
          | '+' :: rr => rr
          | _ => r
        let ed := r1.takeWhile Char.isDigit
        if ed.isEmpty then (none, cs2) else (some (esign, digitsToNat ed), r1.drop ed.length)
      else (none, cs2)
    | [] => (none, cs2)
  let mantissa : Nat := ip * 10 ^ fd.length + digitsToNat fd
  let scaled : ℚ :=
    match expPart.1 with
    | none => mkRat (mantissa : Int) (10 ^ fd.length)
    | some (true, m) => mkRat (mantissa : Int) (10 ^ (fd.length + m))
    | some (false, m) => mkRat ((mantissa * 10 ^ m : Nat) : Int) (10 ^ fd.length)
  .ok (.jnum (if sign then -scaled else scaled), expPart.2)

/-- A JSON number, by the grammar `json.loads` matches (`-?(0|[1-9]\d*)`
with optional `.digits` and exponent parts; a malformed tail is left
unconsumed, surfacing as an "Extra data" error at top level, as in CPython). -/
def parseNumber (cs : List Char) : Except String (JValue × List Char) :=
  let sign : Bool := match cs with
    | '-' :: _ => true
    | _ => false
  let cs1 := if sign then cs.drop 1 else cs
  match cs1 with
  | '0' :: rest0 =>
    parseNumberTail sign 0 rest0
  | c :: _ =>
    if c.isDigit then
      parseNumberTail sign (digitsToNat (cs1.takeWhile Char.isDigit)) (cs1.dropWhile Char.isDigit)
    else .error "Expecting value"
  | [] => .error "Expecting value"

mutual

/-- One JSON value, Python-`json.loads` grammar (strict mode, plus the
`NaN`/`Infinity`/`-Infinity` literals CPython accepts by default). -/
def parseVal : Nat → List Char → Except String (JValue × List Char)
  | 0, _ => .error "value fuel exhausted"
  | fuel + 1, cs0 =>
    let cs := cs0.dropWhile isJsonWs
    match cs with
    | [] => .error "Expecting value"
    | '{' :: rest =>
      let r2 := rest.dropWhile isJsonWs
      (match r2 with
       | '}' :: r3 => .ok (.jobj [], r3)
       | _ => (parseObjItems fuel r2 []).map (fun p => (.jobj p.1, p.2)))
    | '[' :: rest =>
      let r2 := rest.dropWhile isJsonWs
      (match r2 with
       | ']' :: r3 => .ok (.jarr [], r3)
       | _ => (parseArrItems fuel r2 []).map (fun p => (.jarr p.1, p.2)))
    | '"' :: rest => (parseStringBody (rest.length + 1) rest []).map (fun p => (.jstr p.1, p.2))
    | 't' :: _ =>
      if listHasLead "true".data cs then .ok (.jbool true, cs.drop 4) else .error "Expecting value"
    | 'f' :: _ =>
      if listHasLead "false".data cs then .ok (.jbool false, cs.drop 5) else .error "Expecting value"
    | 'n' :: _ =>
      if listHasLead "null".data cs then .ok (.jnull, cs.drop 4) else .error "Expecting value"
    | 'N' :: _ =>
      if listHasLead "NaN".data cs then .ok (.jnan, cs.drop 3) else .error "Expecting value"
    | 'I' :: _ =>
      if listHasLead "Infinity".data cs then .ok (.jinf false, cs.drop 8) else .error "Expecting value"
    | '-' :: 'I' :: _ =>
      if listHasLead "-Infinity".data cs then .ok (.jinf true, cs.drop 9) else .error "Expecting value"
    | _ => parseNumber cs

/-- Array elements from the first value position onward. -/
def parseArrItems : Nat → List Char → List JValue → Except String (List JValue × List Char)
  | 0, _, _ => .error "array fuel exhausted"
  | fuel + 1, cs, acc =>
    match parseVal fuel cs with
    | .error m => .error m
    | .ok (v, rest) =>
      let r := rest.dropWhile isJsonWs
      (match r with
       | ',' :: r2 => parseArrItems fuel r2 (v :: acc)
       | ']' :: r2 => .ok ((v :: acc).reverse, r2)
       | _ => .error "Expecting comma delimiter")

/-- Object members from the first key position onward; duplicate keys follow
Python dict semantics (last value wins, first position kept). -/
def parseObjItems : Nat → List Char → PyDict → Except String (PyDict × List Char)
  | 0, _, _ => .error "object fuel exhausted"
  | fuel + 1, cs0, acc =>
    let cs := cs0.dropWhile isJsonWs
    match cs with
    | '"' :: rest =>
      (match parseStringBody (rest.length + 1) rest [] with
       | .error m => .error m
       | .ok (key, r1) =>
         let r2 := r1.dropWhile isJsonWs
         (match r2 with
          | ':' :: r3 =>
            (match parseVal fuel r3 with
             | .error m => .error m
             | .ok (v, r4) =>
               let r5 := r4.dropWhile isJsonWs
               (match r5 with
                | ',' :: r6 => parseObjItems fuel r6 (dictSet acc key v)
                | '}' :: r6 => .ok (dictSet acc key v, r6)
                | _ => .error "Expecting comma delimiter"))
          | _ => .error "Expecting colon delimiter"))
    | _ => .error "Expecting property name enclosed in double quotes"

end

/-- Python `json.loads`: a single JSON document, whole input consumed up to
trailing JSON whitespace; every failure is a `json.JSONDecodeError`. -/
def json_loads (s : String) : Except PyErr JValue :=
  match parseVal (2 * s.data.length + 8) s.data with
  | .error m => .error (.jsonDecodeError m)
  | .ok (v, rest) =>
    if (rest.dropWhile isJsonWs).isEmpty then .ok v
    else .error (.jsonDecodeError "Extra data")

/-- Python `int(s)` for a string: whitespace-stripped, one optional sign,
then a non-empty digit run covering the rest. -/
def pyIntOfString (s : String) : Except PyErr Int :=
  let t := (pyStrip s).data
  let core : Bool × List Char := match t with
    | '-' :: r => (true, r)
    | '+' :: r => (false, r)
    | _ => (false, t)
  if core.2.isEmpty || core.2.any (fun c => !c.isDigit) then
    .error (.valueError ("invalid literal for int with base 10: " ++ s))
  else
    .ok (if core.1 then -(digitsToNat core.2 : Int) else (digitsToNat core.2 : Int))

/-- Python `int(x)` on a decoded JSON value: floats truncate toward zero,
booleans coerce, strings parse a (stripped, optionally signed) digit run,
`nan`/`inf` and non-numeric containers raise, as in CPython. -/
def pyInt (x : JValue) : Except PyErr Int :=
  match x with
  | .jnum q => .ok (if 0 ≤ q then ⌊q⌋ else ⌈q⌉)
  | .jbool b => .ok (if b then 1 else 0)
  | .jnan => .error (.valueError "cannot convert float NaN to integer")
  | .jinf _ => .error (.overflowError "cannot convert float infinity to integer")
  | .jstr s => pyIntOfString s
  | .jnull => .error (.typeError "int argument must not be NoneType")
  | .jarr _ => .error (.typeError "int argument must not be list")
  | .jobj _ => .error (.typeError "int argument must not be dict")

/-- The markdown-fence stripping of `GeminiClient._parse_analysis_response`:
strip, peel a leading three-backtick-json then a leading three-backtick
marker, peel a trailing three-backtick marker, strip again — each step
exactly the corresponding `startswith`/`endswith` slice of the source. -/
def stripFences (s : String) : String :=
  let t0 := pyStrip s
  let t1 := if pyStartsWith t0 "```json" then pyDropLeft t0 7 else t0
  let t2 := if pyStartsWith t1 "```" then pyDropLeft t1 3 else t1
  let t3 := if pyEndsWith t2 "```" then pyDropRight t2 3 else t2
  pyStrip t3

/-- The `required_fields` list of `_parse_analysis_response`, in source order. -/
def required_fields : List String :=
  ["strengths", "weaknesses", "recommendations", "suitable_roles", "skills"]

/-- One iteration of the backfill loop: `if field not in analysis:
analysis[field] = dflt` — the membership test or the item assignment may
raise when the decoded value is not a dict. -/
def ensureFieldJV (x : JValue) (field : String) (dflt : JValue) : Except PyErr JValue :=
  match pyContains x field with
  | .error e => .error e
  | .ok true => .ok x
  | .ok false => pySetItem x field dflt

/-- The fixed fallback object `_parse_analysis_response` returns when JSON
decoding fails. -/
def fallbackAnalysis (errMsg : String) : PyDict :=
  [("strengths", .jarr [.jstr "Unable to parse analysis"]),
   ("weaknesses", .jarr []),
   ("recommendations", .jarr [.jstr "Please try uploading your resume again"]),
   ("suitable_roles", .jarr []),
   ("skills", .jarr []),
   ("experience_years", .jnum 0),
   ("parse_error", .jstr errMsg)]

/-- `GeminiClient._parse_analysis_response`: unwrap fences, `json.loads`,
backfill the five required fields and `experience_years` on decode success,
return the fallback object on `JSONDecodeError`.  Exceptions other than
`JSONDecodeError` (e.g. the `TypeError` of indexing a decoded list with a
string) propagate, exactly as in the source. -/
def parseAnalysisResponse (rawText : String) : Except PyErr JValue :=
  match json_loads (stripFences rawText) with
  | .error e => .ok (.jobj (fallbackAnalysis (pyErrStr e)))
  | .ok v =>
    match ensureFieldJV v "strengths" (.jarr []) with
    | .error e => .error e
    | .ok v1 =>
      match ensureFieldJV v1 "weaknesses" (.jarr []) with
      | .error e => .error e
      | .ok v2 =>
        match ensureFieldJV v2 "recommendations" (.jarr []) with
        | .error e => .error e
        | .ok v3 =>
          match ensureFieldJV v3 "suitable_roles" (.jarr []) with
          | .error e => .error e
          | .ok v4 =>
            match ensureFieldJV v4 "skills" (.jarr []) with
            | .error e => .error e
            | .ok v5 => ensureFieldJV v5 "experience_years" (.jnum 0)

/-- Tenacity `wait_exponential(multiplier, max, exp_base=2, min)` evaluated
after the failed attempt numbered `attemptNumber`:
`max(max(0, min), min(multiplier * 2**(attempt_number - 1), max))`.
`retry_with_backoff` instantiates it with `multiplier := multiplier`,
`min := initial_wait`, `max := max_wait` and the default base 2. -/
def tenacityWait (multiplier mn mx : ℚ) (attemptNumber : Nat) : ℚ :=
  max (max 0 mn) (min (multiplier * (2 : ℚ) ^ (attemptNumber - 1)) mx)

/-- Outcome of one decorated call: the returned value or the wrapping
`RetryError`, the number of times the wrapped operation ran, and the sleeps
performed between attempts (in seconds, in order). -/
structure RetryOutcome (α : Type) where
  result : Except PyErr α
  calls : Nat
  waits : List ℚ

/-- The attempt loop of tenacity's `retry` decorator as configured by
`retry_with_backoff`: run attempt `n`; return on success; on an exception
(every exception is retryable: `retry_if_exception_type((Exception,))`),
stop once `stop_after_attempt(stopAfter)` holds, wrapping the last exception
in a `RetryError`; otherwise sleep `tenacityWait` and retry.  `fuel` is an
upper bound on the remaining iterations; callers pass at least `stopAfter`,
making the fuel-exhaustion branch unreachable. -/
def retryAux (op : Nat → Except PyErr α) (stopAfter : Nat) (multiplier mn mx : ℚ)
    (n : Nat) : Nat → RetryOutcome α
  | 0 =>
    (match op n with
     | .ok a => ⟨.ok a, 1, []⟩
     | .error e => ⟨.error (.retryFailureErr e), 1, []⟩)
  | fuel' + 1 =>
    match op n with
    | .ok a => ⟨.ok a, 1, []⟩
    | .error e =>
      if stopAfter ≤ n then ⟨.error (.retryFailureErr e), 1, []⟩
      else
        let rest := retryAux op stopAfter multiplier mn mx (n + 1) fuel'
        ⟨rest.result, rest.calls + 1, tenacityWait multiplier mn mx n :: rest.waits⟩

/-- A function decorated with `retry_with_backoff(max_attempts, initial_wait,
max_wait, multiplier)`: attempts are numbered from 1. -/
def retryExecute (op : Nat → Except PyErr α) (maxAttempts : Nat)
    (multiplier initialWait maxWait : ℚ) : RetryOutcome α :=
  retryAux op maxAttempts multiplier initialWait maxWait 1 maxAttempts

/-- Modelled from the spec (claims C3): the spec's stated backoff formula,
"wait before attempt `n` (n≥2) equals `min(max_wait, initial_wait *
multiplier^(n-2))`" — kept separate from the embedded tenacity arithmetic so
the two can be compared. -/
def specWaitBeforeAttempt (initialWait maxWait multiplier : ℚ) (n : Nat) : ℚ :=
  min maxWait (initialWait * multiplier ^ (n - 2))

/-- The wait the code performs before attempt `n` (n ≥ 2): tenacity evaluates
its wait function at the attempt number of the attempt that just failed. -/
def codeWaitBeforeAttempt (multiplier initialWait maxWait : ℚ) (n : Nat) : ℚ :=
  tenacityWait multiplier initialWait maxWait (n - 1)

/-- 2^32, the word modulus of SHA-256. -/
def sha2M : Nat := 4294967296

/-- Rotate a 32-bit word (given as a `Nat` below `sha2M`) right by `r`. -/
def rotr32 (r x : Nat) : Nat :=
  (x / 2 ^ r + x % 2 ^ r * 2 ^ (32 - r)) % sha2M

/-- Bitwise complement within 32 bits. -/
def compl32 (x : Nat) : Nat := x ^^^ 4294967295

/-- SHA-256 `Ch`. -/
def shaCh (e f g : Nat) : Nat := (e &&& f) ^^^ (compl32 e &&& g)

/-- SHA-256 `Maj`. -/
def shaMaj (a b c : Nat) : Nat := (a &&& b) ^^^ (a &&& c) ^^^ (b &&& c)

/-- SHA-256 `Σ0`. -/
def sumUpperA (x : Nat) : Nat := rotr32 2 x ^^^ rotr32 13 x ^^^ rotr32 22 x

/-- SHA-256 `Σ1`. -/
def sumUpperE (x : Nat) : Nat := rotr32 6 x ^^^ rotr32 11 x ^^^ rotr32 25 x

/-- SHA-256 `σ0`. -/
def sigLower0 (x : Nat) : Nat := rotr32 7 x ^^^ rotr32 18 x ^^^ (x / 2 ^ 3)

/-- SHA-256 `σ1`. -/
def sigLower1 (x : Nat) : Nat := rotr32 17 x ^^^ rotr32 19 x ^^^ (x / 2 ^ 10)

/-- The SHA-256 round constants. -/
def shaK : List Nat :=
  [1116352408, 1899447441, 3049323471, 3921009573, 961987163,
   1508970993, 2453635748, 2870763221, 3624381080, 310598401,
   607225278, 1426881987, 1925078388, 2162078206, 2614888103,
   3248222580, 3835390401, 4022224774, 264347078, 604807628,
   770255983, 1249150122, 1555081692, 1996064986, 2554220882,
   2821834349, 2952996808, 3210313671, 3336571891, 3584528711,
   113926993, 338241895, 666307205, 773529912, 1294757372,
   1396182291, 1695183700, 1986661051, 2177026350, 2456956037,
   2730485921, 2820302411, 3259730800, 3345764771, 3516065817,
   3600352804, 4094571909, 275423344, 430227734, 506948616,
   659060556, 883997877, 958139571, 1322822218, 1537002063,
   1747873779, 1955562222, 2024104815, 2227730452, 2361852424,
   2428436474, 2756734187, 3204031479, 3329325298]

/-- The SHA-256 initial hash value. -/
def shaH0 : List Nat :=
  [1779033703, 3144134277, 1013904242, 2773480762, 1359893119,
   2600822924, 528734635, 1541459225]

/-- SHA-256 message padding: append `0x80`, zeros to 56 mod 64, then the
bit length as 8 big-endian bytes. -/
def shaPad (msg : List Nat) : List Nat :=
  let l := msg.length
  let z := (119 - l % 64) % 64
  let bitLen := 8 * l
  msg ++ [0x80] ++ List.replicate z 0 ++
    ([56, 48, 40, 32, 24, 16, 8, 0].map (fun k => bitLen / 2 ^ k % 256))

/-- The 16 initial 32-bit words of one 64-byte block (big-endian). -/
def blockWords (blk : List Nat) : List Nat :=
  (List.range 16).map (fun j =>
    ((blk.getD (4 * j) 0 * 256 + blk.getD (4 * j + 1) 0) * 256 +
      blk.getD (4 * j + 2) 0) * 256 + blk.getD (4 * j + 3) 0)

/-- Extend the message schedule by `t` additional words. -/
def extendSched (ws : List Nat) : Nat → List Nat
  | 0 => ws
  | t + 1 =>
    let n := ws.length
    extendSched
      (ws ++ [(sigLower1 (ws.getD (n - 2) 0) + ws.getD (n - 7) 0 +
               sigLower0 (ws.getD (n - 15) 0) + ws.getD (n - 16) 0) % sha2M]) t

/-- The working variables of the compression loop. -/
structure ShaState where
  a : Nat
  b : Nat
  c : Nat
  d : Nat
  e : Nat
  f : Nat
  g : Nat
  h : Nat

/-- One SHA-256 round. -/
def shaRound (w : List Nat) (s : ShaState) (t : Nat) : ShaState :=
  let t1 := (s.h + sumUpperE s.e + shaCh s.e s.f s.g + shaK.getD t 0 + w.getD t 0) % sha2M
  let t2 := (sumUpperA s.a + shaMaj s.a s.b s.c) % sha2M
  ⟨(t1 + t2) % sha2M, s.a, s.b, s.c, (s.d + t1) % sha2M, s.e, s.f, s.g⟩

/-- Compress one 64-byte block into the running 8-word hash value. -/
def shaCompress (hs : List Nat) (blk : List Nat) : List Nat :=
  let w := extendSched (blockWords blk) 48
  let s0 : ShaState := ⟨hs.getD 0 0, hs.getD 1 0, hs.getD 2 0, hs.getD 3 0,
                        hs.getD 4 0, hs.getD 5 0, hs.getD 6 0, hs.getD 7 0⟩
  let s := (List.range 64).foldl (shaRound w) s0
  [(hs.getD 0 0 + s.a) % sha2M, (hs.getD 1 0 + s.b) % sha2M,
   (hs.getD 2 0 + s.c) % sha2M, (hs.getD 3 0 + s.d) % sha2M,
   (hs.getD 4 0 + s.e) % sha2M, (hs.getD 5 0 + s.f) % sha2M,
   (hs.getD 6 0 + s.g) % sha2M, (hs.getD 7 0 + s.h) % sha2M]

/-- SHA-256 over a byte sequence, as the 8 final 32-bit words. -/
def sha256Words (msg : List Nat) : List Nat :=
  let padded := shaPad msg
  (List.range (padded.length / 64)).foldl
    (fun hs i => shaCompress hs ((padded.drop (64 * i)).take 64)) shaH0

/-- Lowercase hex digit. -/
def hexDigit (n : Nat) : Char :=
  "0123456789abcdef".data.getD n '0'

/-- A 32-bit word as 8 lowercase hex characters. -/
def wordHex (w : Nat) : List Char :=
  [28, 24, 20, 16, 12, 8, 4, 0].map (fun k => hexDigit (w / 2 ^ k % 16))

/-- `Resume.compute_file_hash`: `hashlib.sha256(file_content).hexdigest()` —
the hex-encoded SHA-256 digest of the raw file bytes. -/
def compute_file_hash (fileContent : List Nat) : String :=
  ⟨(sha256Words fileContent).flatMap wordHex⟩

/-- The uploaded file as the service sees it: `UploadFile.filename`,
`UploadFile.content_type`, and the bytes returned by `file.read()`. -/
structure UploadedFile where
  filename : String
  content_type : String
  content : List Nat

/-- One row of the `resumes` table, restricted to the columns the cache and
the orchestration read or write.  `analysis_result` is the JSONB payload:
every write the service performs stores a JSON object, so the column is
modelled as an optional dict (`none` is SQL NULL). -/
structure ResumeRec where
  id : Nat
  user_id : Nat
  file_hash : String
  status : String
  analysis_result : Option PyDict
  error_message : Option String

/-- `ResumeService.ALLOWED_MIME_TYPES` (its key set). -/
def ALLOWED_MIME_TYPES : List String :=
  ["application/pdf",
   "application/vnd.openxmlformats-officedocument.wordprocessingml.document",
   "application/msword",
   "application/octet-stream"]

/-- `ResumeService.ALLOWED_EXTENSIONS`. -/
def ALLOWED_EXTENSIONS : List String := [".pdf", ".docx", ".doc"]

/-- `pathlib.PurePath.suffix`: the final dot-suffix of the last path
component, empty when the dot is leading, trailing or absent. -/
def pySuffix (filename : String) : String :=
  let name := (filename.data.reverse.takeWhile (fun c => c ≠ '/')).reverse
  match (name.reverse.takeWhile (fun c => c ≠ '.')).length, name.length with
  | tailLen, n =>
    if tailLen = n then ""
    else
      let i := n - tailLen - 1
      if i = 0 || i = n - 1 then "" else ⟨name.drop i⟩

/-- `ResumeService._validate_file`: accept when the MIME type is an allowed
key or the lowered extension is an allowed extension; raise `ValueError`
otherwise.  An empty filename contributes the empty extension. -/
def validateFile (file : UploadedFile) : Bool :=
  let fileExt := if file.filename == "" then "" else pyLower (pySuffix file.filename)
  ALLOWED_MIME_TYPES.contains file.content_type || ALLOWED_EXTENSIONS.contains fileExt

/-- `ResumeService._get_cached_resume`: first row matching
`(user_id, file_hash, status == "analyzed")`; a hit whose truthy payload
lacks the `"ats_score"` key is invalidated (returns `None`) to trigger
re-analysis.  A NULL or empty payload is falsy in Python, so such a row is
returned untouched. -/
def getCachedResume (db : List ResumeRec) (userId : Nat) (fileHash : String) :
    Option ResumeRec :=
  match db.find? (fun r =>
      r.user_id == userId && r.file_hash == fileHash && r.status == "analyzed") with
  | none => none
  | some cached =>
    match cached.analysis_result with
    | some payload =>
      if !payload.isEmpty && !dictContainsKey payload "ats_score" then none
      else some cached
    | none => some cached

/-- The body of one `analyze_resume_text` attempt after the prompt is built:
call the model (`gen n` is the text the external model returns on the n-th
invocation, or the exception it raises), normalize the text, then attach the
`analyzed_at` and `model_used` metadata.  Every exception escaping the body —
including a `TypeError` from the normalizer — is retryable under the
decorator's `(Exception,)` policy.  A successful attempt always carries a
dict: item assignment succeeded on it (the final catch-all is unreachable). -/
def analyzeOp (gen : Nat → Except PyErr String) (analyzedAt : JValue)
    (modelUsed : String) (n : Nat) : Except PyErr PyDict :=
  match gen n with
  | .error e => .error e
  | .ok raw =>
    match parseAnalysisResponse raw with
    | .error e => .error e
    | .ok v =>
      match pySetItem v "analyzed_at" analyzedAt with
      | .error e => .error e
      | .ok v1 =>
        match pySetItem v1 "model_used" (.jstr modelUsed) with
        | .error e => .error e
        | .ok (.jobj d) => .ok d
        | .ok _ => .error (.typeError "unreachable: item assignment succeeded on a non-dict")

/-- Result of one `upload_and_analyze_resume` call: the table after the call,
the returned row (or the exception raised), and how many times the external
model ran. -/
structure PipelineResult where
  db : List ResumeRec
  result : Except PyErr ResumeRec
  geminiCalls : Nat

/-- `settings.max_upload_size_mb` default (5) in bytes; `_save_file` rejects
strictly larger uploads. -/
def maxUploadBytes : Nat := 5242880

/-- `ResumeService.upload_and_analyze_resume`: validate, hash, consult the
cache, persist a `processing` row, extract text, then analyze under
`@retry_gemini_api(max_attempts=3)` — tenacity configured with
`initial_wait=1.0, max_wait=8.0, multiplier=2.0`.  On success the row turns
`analyzed` and stores the normalized payload; on retry exhaustion or
extraction failure it turns `failed` with an error message, and the exception
propagates to the caller.  `extractRes` stands for `_extract_text` (PDF/DOCX
I/O outside the core), `analyzedAt`/`modelUsed` for the metadata values. -/
def uploadAndAnalyzeResume (db : List ResumeRec) (nextId : Nat)
    (gen : Nat → Except PyErr String) (extractRes : Except PyErr String)
    (analyzedAt : JValue) (modelUsed : String)
    (file : UploadedFile) (userId : Nat) : PipelineResult :=
  if !validateFile file then
    ⟨db, .error (.valueError ("Invalid file type: " ++ file.content_type)), 0⟩
  else
    let fileHash := compute_file_hash file.content
    match getCachedResume db userId fileHash with
    | some cached => ⟨db, .ok cached, 0⟩
    | none =>
      if maxUploadBytes < file.content.length then
        ⟨db, .error (.valueError "File too large"), 0⟩
      else
        match extractRes with
        | .error e =>
          let failedRec : ResumeRec :=
            ⟨nextId, userId, fileHash, "failed", none,
             some ("Text extraction failed: " ++ pyErrStr e)⟩
          ⟨db ++ [failedRec], .error e, 0⟩
        | .ok _extractedText =>
          let run := retryExecute (analyzeOp gen analyzedAt modelUsed) 3 2 1 8
          match run.result with
          | .ok analysis =>
            let okRec : ResumeRec :=
              ⟨nextId, userId, fileHash, "analyzed", some analysis, none⟩
            ⟨db ++ [okRec], .ok okRec, run.calls⟩
          | .error e =>
            let failedRec : ResumeRec :=
              ⟨nextId, userId, fileHash, "failed", none,
               some ("Analysis failed: " ++ pyErrStr e)⟩
            ⟨db ++ [failedRec], .error e, run.calls⟩

/-- The code-fence extraction shared by `_generate_questions_with_gemini` and
`_evaluate_with_gemini`: `text.split("```json")[1].split("```")[0]` when a
json-tagged fence is present, else the same with a bare fence, else the text
unchanged.  (Cutting at the first later triple-backtick is equivalent to
Python's split composition, since any later fence marker begins with one.) -/
def extractFenced (t : String) : String :=
  if strContains t "```json" then strBeforeFirst (strAfterFirst t "```json") "```"
  else if strContains t "```" then strBeforeFirst (strAfterFirst t "```") "```"
  else t

/-- Python `x[:n]`: lists and strings slice; other decoded values raise
`TypeError`. -/
def pySliceTake (n : Nat) (x : JValue) : Except PyErr JValue :=
  match x with
  | .jarr xs => .ok (.jarr (xs.take n))
  | .jstr s => .ok (.jstr ⟨s.data.take n⟩)
  | _ => .error (.typeError "object is not subscriptable")

/-- The normalized answer evaluation `_evaluate_with_gemini` returns. -/
structure EvalResult where
  score : Int
  strengths : JValue
  improvements : JValue
  feedback : JValue
  model_answer : JValue

/-- The response-normalization half of `InterviewService._evaluate_with_gemini`
(the prompt construction and the model call feed it `response`): strip,
unfence, `json.loads`; on decode failure return the canned evaluation with
score 60; on success clamp `int(evaluation.get("score", 50))` into `[0, 100]`
via `min(100, max(0, ...))` and slice the list fields to five entries.
A decoded non-dict raises `AttributeError` (no `.get`); a non-numeric score
raises out of `int(...)` — both propagate, as in the source. -/
def evaluateWithGemini (response : String) : Except PyErr EvalResult :=
  let t := extractFenced (pyStrip response)
  match json_loads t with
  | .error _ =>
    .ok ⟨60, .jarr [.jstr "답변을 제출했습니다"], .jarr [.jstr "더 구체적인 예시를 들어주세요"],
        .jstr "답변을 평가했습니다. 더 구체적인 경험과 수치를 포함하면 좋겠습니다.", .jstr ""⟩
  | .ok v =>
    match v with
    | .jobj d =>
      (match pyInt (dictGet d "score" (.jnum 50)) with
       | .error e => .error e
       | .ok i =>
         match pySliceTake 5 (dictGet d "strengths" (.jarr [])) with
         | .error e => .error e
         | .ok st =>
           match pySliceTake 5 (dictGet d "improvements" (.jarr [])) with
           | .error e => .error e
           | .ok im =>
             .ok ⟨min 100 (max 0 i), st, im,
                 dictGet d "feedback" (.jstr "평가를 완료했습니다."),
                 dictGet d "model_answer" (.jstr "")⟩)
    | _ => .error (.attributeError "object has no attribute get")

/-- One entry of the canned fallback bank of `_get_fallback_questions`. -/
structure FallbackQ where
  question : String
  qKind : String
  expected_topics : List String

/-- The Korean fallback bank (five questions). -/
def koFallback (jobTitle : String) : List FallbackQ :=
  [⟨jobTitle ++ " 직무에 지원하게 된 동기가 무엇인가요?", "behavioral", ["동기", "열정", "경력 목표"]⟩,
   ⟨"가장 도전적이었던 프로젝트 경험을 말씀해주세요.", "behavioral", ["문제 해결", "팀워크", "성과"]⟩,
   ⟨"팀에서 갈등이 발생했을 때 어떻게 해결하셨나요?", "situational", ["커뮤니케이션", "협업", "리더십"]⟩,
   ⟨"본인의 강점과 약점은 무엇이라고 생각하시나요?", "behavioral", ["자기인식", "성장", "개선"]⟩,
   ⟨"5년 후 본인의 모습을 어떻게 그리고 계신가요?", "behavioral", ["경력 계획", "목표", "성장"]⟩]

/-- The English fallback bank (five questions). -/
def enFallback (jobTitle : String) : List FallbackQ :=
  [⟨"Why are you interested in the " ++ jobTitle ++ " position?", "behavioral",
    ["motivation", "passion", "career goals"]⟩,
   ⟨"Tell me about your most challenging project experience.", "behavioral",
    ["problem solving", "teamwork", "results"]⟩,
   ⟨"How do you handle conflicts within a team?", "situational",
    ["communication", "collaboration", "leadership"]⟩,
   ⟨"What are your strengths and weaknesses?", "behavioral",
    ["self-awareness", "growth", "improvement"]⟩,
   ⟨"Where do you see yourself in 5 years?", "behavioral",
    ["career plan", "goals", "growth"]⟩]

/-- One validated interview question, with the fields the service writes. -/
structure InterviewQuestion where
  id : Nat
  question : JValue
  qKind : JValue
  difficulty : Int
  expected_topics : JValue
  time_limit_seconds : JValue
  tips : JValue

/-- `InterviewService._get_fallback_questions`: the language-matched bank,
truncated to `count`, numbered from 1, all at difficulty 3 / 120 seconds. -/
def getFallbackQuestions (jobTitle : String) (count : Nat) (language : String) :
    List InterviewQuestion :=
  let bank := if language == "ko" then koFallback jobTitle else enFallback jobTitle
  (bank.take count).enum.map (fun p =>
    ⟨p.1 + 1, .jstr p.2.question, .jstr p.2.qKind, 3,
     .jarr (p.2.expected_topics.map JValue.jstr), .jnum 120, .jstr ""⟩)

/-- Validation of one decoded question object in the success path of
`_generate_questions_with_gemini`: `.get` defaults, and the difficulty clamp
`min(5, max(1, int(q.get("difficulty", 3))))`; a non-dict element has no
`.get`. -/
def normalizeQuestion (i : Nat) (q : JValue) : Except PyErr InterviewQuestion :=
  match q with
  | .jobj d =>
    (match pyInt (dictGet d "difficulty" (.jnum 3)) with
     | .error e => .error e
     | .ok df =>
       .ok ⟨i, dictGet d "question" (.jstr ""), dictGet d "type" (.jstr "behavioral"),
           min 5 (max 1 df), dictGet d "expected_topics" (.jarr []),
           dictGet d "time_limit_seconds" (.jnum 120), dictGet d "tips" (.jstr "")⟩)
  | _ => .error (.attributeError "object has no attribute get")

/-- The `enumerate(questions[:question_count], 1)` loop body. -/
def normalizeQuestions (i : Nat) : List JValue → Except PyErr (List InterviewQuestion)
  | [] => .ok []
  | q :: qs =>
    match normalizeQuestion i q with
    | .error e => .error e
    | .ok nq =>
      match normalizeQuestions (i + 1) qs with
      | .error e => .error e
      | .ok rest => .ok (nq :: rest)

/-- The response-parsing half of `_generate_questions_with_gemini`: strip,
unfence, `json.loads`; on `JSONDecodeError` fall back to the canned bank;
on success slice to `question_count` and validate each element.  A decoded
string slices to its characters (an empty one yields zero questions); other
non-list values raise `TypeError`, and non-dict elements `AttributeError` —
all propagating, as in the source. -/
def generateQuestionsFromResponse (response : String) (questionCount : Nat)
    (jobTitle language : String) : Except PyErr (List InterviewQuestion) :=
  let t := extractFenced (pyStrip response)
  match json_loads t with
  | .error _ => .ok (getFallbackQuestions jobTitle questionCount language)
  | .ok v =>
    match v with
    | .jarr xs => normalizeQuestions 1 (xs.take questionCount)
    | .jstr s =>
      if (s.data.take questionCount).isEmpty then .ok []
      else .error (.attributeError "str object has no attribute get")
    | .jobj _ => .error (.typeError "unhashable type: slice")
    | _ => .error (.typeError "object is not subscriptable")

/-- The slice of one `generate_interview` call that the claims observe:
status, stored questions, stored error. -/
structure InterviewOutcome where
  status : String
  questions : Option (List InterviewQuestion)
  error_message : Option String

/-- `InterviewService.generate_interview` after the record is created in
status `generating`: the requested count is clamped by
`question_count = max(1, min(10, question_count))`; a successful question
build (including the fallback path) commits status `ready`, an exception
commits status `failed` with the message recorded. -/
def generateInterviewOutcome (response : String) (questionCountReq : Int)
    (jobTitle language : String) : InterviewOutcome :=
  let qc := (max 1 (min 10 questionCountReq)).toNat
  match generateQuestionsFromResponse response qc jobTitle language with
  | .ok qs => ⟨"ready", some qs, none⟩
  | .error e => ⟨"failed", none, some (pyErrStr e)⟩

/-- The spec's end-to-end scenario input: owner 42 uploads the bytes of
`"hello"` as `resume.pdf`. -/
def c1File : UploadedFile := ⟨"resume.pdf", "application/pdf", [104, 101, 108, 108, 111]⟩

/-- An external model that always answers the spec-scenario payload
`'{"skills":["Python"]}'`. -/
def c1Gen : Nat → Except PyErr String := fun _ => .ok "\x7b\"skills\":[\"Python\"]\x7d"

/-- First submission of the scenario content into an empty table. -/
def c1FirstRun : PipelineResult :=
  uploadAndAnalyzeResume [] 1 c1Gen (.ok "hello") (.jnum 0) "gemini-1.5-pro" c1File 42

/-- Second, identical submission, sequentially after the first. -/
def c1SecondRun : PipelineResult :=
  uploadAndAnalyzeResume c1FirstRun.db 2 c1Gen (.ok "hello") (.jnum 0) "gemini-1.5-pro" c1File 42

/-- Status of the artifact the first submission returned. -/
def c1FirstStatus : String :=
  match c1FirstRun.result with
  | .ok r => r.status
  | .error _ => "raised"

/-- An operation that fails on every attempt (exercises the backoff schedule). -/
def c3AlwaysFail : Nat → Except PyErr Nat := fun _ => .error (.valueError "transient")

/-- A stored `analyzed` row whose payload is the empty dict: it lacks the
`ats_score` key, yet is falsy in Python. -/
def c5Entry : ResumeRec := ⟨1, 7, "cafe00", "analyzed", some [], none⟩

/-- A stored `analyzed` row with a non-empty payload lacking `ats_score`
(the shape every row written by this code base has). -/
def c5StaleEntry : ResumeRec :=
  ⟨2, 7, "cafe11", "analyzed", some [("strengths", .jarr [.jstr "s"])], none⟩

/-- An external model that always raises (the C6 exhaustion mock). -/
def c6Gen : Nat → Except PyErr String := fun _ => .error (.valueError "boom")

/-- The exceptions `c6Gen` raises, attempt by attempt. -/
def c6Err : Nat → PyErr := fun _ => .valueError "boom"

/-- A flaky operation failing twice, then returning 7. -/
def c4Op : Nat → Except PyErr Nat :=
  fun n => if n ≤ 2 then .error (.valueError "transient") else .ok 7

/-- A decoded evaluation whose score field is 150. -/
def c7Resp150 : String := "\x7b\"score\": 150\x7d"

/-- A decoded evaluation whose score field is -20. -/
def c7RespNeg20 : String := "\x7b\"score\": -20\x7d"

/-- The score of a returned evaluation, `none` when the call raised. -/
def evalScoreOf (r : Except PyErr EvalResult) : Option Int :=
  match r with
  | .ok ev => some ev.score
  | .error _ => none

/-- An upload that is neither an allowed MIME type nor an allowed extension. -/
def c9BadFile : UploadedFile := ⟨"resume.txt", "text/plain", [1, 2, 3]⟩

/-- A fenced, field-poor but well-formed model response (C2 witness input). -/
def c2FencedInput : String := "```json\n\x7b\"skills\": [\"Python\"]\x7d\n```"

/-- Does the fence-stripped text either fail JSON decoding or decode to an
object?  (The region where the normalizer is total; its complement is the
corrected part of C2.) -/
def decodesToObjectOrFails (s : String) : Bool :=
  match json_loads (stripFences s) with
  | .error _ => true
  | .ok (.jobj _) => true
  | .ok _ => false

/-- The six keys the spec requires of every normalized analysis. -/
def requiredAnalysisKeys : List String := required_fields ++ ["experience_years"]

/-- Bytes of `b"test content"` (the repository's own fingerprint test input). -/
def c8TestContent : List Nat :=
  [116, 101, 115, 116, 32, 99, 111, 110, 116, 101, 110, 116]

/-- Bytes of `b"different content"` (the repository's contrasting input). -/
def c8DifferentContent : List Nat :=
  [100, 105, 102, 102, 101, 114, 101, 110, 116, 32, 99, 111, 110, 116, 101, 110, 116]

theorem append_ne_empty_left (s t : String) (h : s.data ≠ []) : s ++ t ≠ "" := by
  intro he
  apply h
  have hd : s.data ++ t.data = ([] : List Char) := congrArg String.data he
  exact (List.append_eq_nil.mp hd).1

theorem dictContainsKey_dictSet (d : PyDict) (k : String) (v : JValue) (g : String) :
    dictContainsKey (dictSet d k v) g = (k == g || dictContainsKey d g) := by
  induction d with
  | nil => simp [dictSet, dictContainsKey]
  | cons p rest ih =>
    obtain ⟨k0, v0⟩ := p
    by_cases h : k0 = k
    · subst h
      simp [dictSet, dictContainsKey]
    · have hb : (k0 == k) = false := by simp [h]
      simp only [dictSet, hb, Bool.false_eq_true, if_false, dictContainsKey, ih]
      cases hk : (k0 == g) <;> cases hg : (k == g) <;> simp [hk, hg]

theorem ensureFieldJV_jobj (d : PyDict) (f : String) (dflt : JValue) :
    ∃ d2, ensureFieldJV (.jobj d) f dflt = .ok (.jobj d2) ∧
      dictContainsKey d2 f = true ∧
      ∀ g, dictContainsKey d g = true → dictContainsKey d2 g = true := by
  cases h : dictContainsKey d f with
  | true =>
    refine ⟨d, ?_, h, fun g hg => hg⟩
    simp [ensureFieldJV, pyContains, h]
  | false =>
    refine ⟨dictSet d f dflt, ?_, ?_, ?_⟩
    · simp [ensureFieldJV, pyContains, h, pySetItem]
    · simp [dictContainsKey_dictSet]
    · intro g hg
      simp [dictContainsKey_dictSet, hg]

theorem retryAux_ok_of {α : Type} (op : Nat → Except PyErr α) (stopAfter : Nat)
    (m mn mx : ℚ) (a : α) (err : Nat → PyErr) (n0 : Nat)
    (hstop : n0 ≤ stopAfter) (hok : op n0 = .ok a) :
    ∀ fuel n, n ≤ n0 → n0 ≤ n + fuel →
      (∀ i, n ≤ i → i < n0 → op i = .error (err i)) →
      (retryAux op stopAfter m mn mx n fuel).result = .ok a ∧
      (retryAux op stopAfter m mn mx n fuel).calls = n0 - n + 1 := by
  intro fuel
  induction fuel with
  | zero =>
    intro n hn hnf herr
    have he : n = n0 := by omega
    subst he
    simp [retryAux, hok]
  | succ fuel ih =>
    intro n hn hnf herr
    by_cases he : n = n0
    · subst he
      simp [retryAux, hok]
    · have hlt : n < n0 := by omega
      have herrn := herr n (Nat.le_refl n) hlt
      have hns : ¬ stopAfter ≤ n := by omega
      have hrec := ih (n + 1) (by omega) (by omega) (fun i h1 h2 => herr i (by omega) h2)
      constructor
      · simp only [retryAux, herrn]
        rw [if_neg hns]
        exact hrec.1
      · have h2 := hrec.2
        simp only [retryAux, herrn]
        rw [if_neg hns]
        simp only []
        omega

theorem retryAux_exhausts {α : Type} (op : Nat → Except PyErr α) (stopAfter : Nat)
    (m mn mx : ℚ) (err : Nat → PyErr)
    (herr : ∀ i, i ≤ stopAfter → op i = .error (err i)) :
    ∀ fuel n, 1 ≤ n → n ≤ stopAfter → stopAfter ≤ n + fuel →
      (retryAux op stopAfter m mn mx n fuel).result =
        .error (.retryFailureErr (err stopAfter)) ∧
      (retryAux op stopAfter m mn mx n fuel).calls = stopAfter - n + 1 := by
  intro fuel
  induction fuel with
  | zero =>
    intro n h1 h2 h3
    have he : n = stopAfter := by omega
    subst he
    simp [retryAux, herr n (Nat.le_refl n)]
  | succ fuel ih =>
    intro n h1 h2 h3
    by_cases hs : stopAfter ≤ n
    · have he : n = stopAfter := by omega
      subst he
      simp [retryAux, herr n (Nat.le_refl n), hs]
    · have herrn := herr n (by omega)
      have hrec := ih (n + 1) (by omega) (by omega) (by omega)
      constructor
      · simp only [retryAux, herrn]
        rw [if_neg hs]
        exact hrec.1
      · have hc := hrec.2
        simp only [retryAux, herrn]
        rw [if_neg hs]
        simp only []
        omega

theorem getCachedResume_append_not_analyzed (db : List ResumeRec) (r : ResumeRec)
    (uid : Nat) (fh : String) (hr : r.status ≠ "analyzed")
    (hm : getCachedResume db uid fh = none) :
    getCachedResume (db ++ [r]) uid fh = none := by
  have hpr : (r.user_id == uid && r.file_hash == fh && r.status == "analyzed") = false := by
    have : (r.status == "analyzed") = false := by simp [hr]
    simp [this]
  unfold getCachedResume at hm ⊢
  rw [List.find?_append]
  cases hf : List.find? (fun x =>
      x.user_id == uid && x.file_hash == fh && x.status == "analyzed") db with
  | none =>
    simp [List.find?, hpr]
  | some x =>
    rw [hf] at hm
    simp only [Option.or_some]
    exact hm

theorem getFallbackQuestions_length (jobTitle : String) (count : Nat) (language : String) :
    (getFallbackQuestions jobTitle count language).length = min count 5 := by
  unfold getFallbackQuestions
  cases h : (language == "ko") <;>
    simp [h, koFallback, enFallback, List.enum_length]

set_option maxRecDepth 100000 in
/-- C1: the claim says two sequential submissions of the same owner+content
cause exactly one external-model invocation.  On this code they cause two:
the first run stores an `analyzed` payload that (like every payload this
pipeline produces) lacks the `ats_score` key the cache's staleness check
demands, so the second run's lookup invalidates the entry and calls the
model again.  This contradicts the repository's own cache test
(`test_upload_and_analyze_cached` asserts no additional call) — a code bug. -/
theorem c1_second_submission_calls_model_again :
    c1FirstStatus = "analyzed" ∧ c1FirstRun.geminiCalls = 1 ∧ c1SecondRun.geminiCalls = 1 := by
  refine ⟨by decide, by decide, by decide⟩

set_option maxRecDepth 100000 in
/-- C3: the claim (and the docstring of `retry_with_backoff`) say the wait
before attempt `n` is `min(max_wait, initial_wait * multiplier^(n-2))` —
1s, 2s, 4s for the primary Gemini policy (initial 1.0, max 8.0,
multiplier 2.0).  The code hands `multiplier=2.0` to tenacity's coefficient
and `initial_wait` to its lower clamp, so it actually sleeps
`max(initial_wait, min(multiplier * 2^(n-2), max_wait))`: 2s, 4s, 8s.
A failing run under the primary policy with three attempts sleeps [2, 4],
where the claimed formula gives [1, 2] — a code bug (the implementation
contradicts its own documented schedule). -/
theorem c3_backoff_schedule_diverges :
    (retryExecute c3AlwaysFail 3 2 1 8).waits = [2, 4] ∧
    codeWaitBeforeAttempt 2 1 8 2 = 2 ∧
    codeWaitBeforeAttempt 2 1 8 3 = 4 ∧
    codeWaitBeforeAttempt 2 1 8 4 = 8 ∧
    specWaitBeforeAttempt 1 8 2 2 = 1 ∧
    specWaitBeforeAttempt 1 8 2 3 = 2 ∧
    specWaitBeforeAttempt 1 8 2 4 = 4 ∧
    codeWaitBeforeAttempt 2 1 8 2 ≠ specWaitBeforeAttempt 1 8 2 2 := by
  refine ⟨?_, ?_, ?_, ?_, ?_, ?_, ?_, ?_⟩ <;>
    norm_num [retryExecute, retryAux, c3AlwaysFail, codeWaitBeforeAttempt,
      specWaitBeforeAttempt, tenacityWait, min_def, max_def]

set_option maxRecDepth 1000000 in
/-- C8: `Resume.compute_file_hash` is the hex-encoded SHA-256 digest of the
raw bytes (definitionally, with SHA-256 embedded from FIPS 180-4 and checked
against the standard test vectors for `b""` and `b"abc"`); it is
deterministic, and distinct practical inputs — the repository's own test
bytes `b"test content"` and `b"different content"` — give distinct 64-char
fingerprints. -/
theorem c8_fingerprint_is_sha256_hex :
    (∀ b : List Nat, compute_file_hash b = ⟨(sha256Words b).flatMap wordHex⟩) ∧
    (∀ b : List Nat, compute_file_hash b = compute_file_hash b) ∧
    compute_file_hash [] =
      "e3b0c44298fc1c149afbf4c8996fb92427ae41e4649b934ca495991b7852b855" ∧
    compute_file_hash [97, 98, 99] =
      "ba7816bf8f01cfea414140de5dae2223b00361a396177a9cb410ff61f20015ad" ∧
    compute_file_hash c8TestContent ≠ compute_file_hash c8DifferentContent ∧
    (compute_file_hash c8TestContent).length = 64 := by
  refine ⟨fun b => rfl, fun b => rfl, by decide, by decide, by decide, by decide⟩

/-- C9: an upload that is neither an allowed MIME type nor an allowed
extension fails `_validate_file` as the very first step of
`upload_and_analyze_resume`: the `ValueError` surfaces with the table
untouched and the external model invoked zero times — no retry attempt is
consumed. -/
theorem c9_invalid_file_no_model_call (db : List ResumeRec) (nextId : Nat)
    (gen : Nat → Except PyErr String) (extractRes : Except PyErr String)
    (analyzedAt : JValue) (modelUsed : String) (file : UploadedFile) (userId : Nat)
    (hbad : validateFile file = false) :
    uploadAndAnalyzeResume db nextId gen extractRes analyzedAt modelUsed file userId =
      ⟨db, .error (.valueError ("Invalid file type: " ++ file.content_type)), 0⟩ := by
  unfold uploadAndAnalyzeResume
  rw [hbad]
  rfl

set_option maxRecDepth 4000 in
/-- C9 witness: a `.txt`/`text/plain` upload is rejected with no model call. -/
theorem c9_invalid_file_no_model_call_witness :
    uploadAndAnalyzeResume [] 1 c1Gen (.ok "t") (.jnum 0) "m" c9BadFile 42 =
      ⟨[], .error (.valueError ("Invalid file type: " ++ "text/plain")), 0⟩ :=
  c9_invalid_file_no_model_call [] 1 c1Gen (.ok "t") (.jnum 0) "m" c9BadFile 42 (by decide)

/-- C5 counterexample: a stored `analyzed` row whose payload is the empty
dict is missing the `ats_score` metric, yet `_get_cached_resume` returns it
instead of `None`: the guard `cached.analysis_result and "ats_score" not in
cached.analysis_result` is skipped because an empty dict is falsy.  The
claim's universal statement is therefore false as written. -/
theorem c5_empty_payload_is_returned :
    getCachedResume [c5Entry] 7 "cafe00" = some c5Entry := rfl

/-- C5 (amended): if the first row matching `(owner, fingerprint,
status="analyzed")` carries a payload that is present, non-empty and missing
the `ats_score` key, the lookup returns `None` — the staleness invalidation
as the code actually implements it (entries with NULL or empty payloads are
returned as-is). -/
theorem c5_nonempty_stale_payload_invalidated (db : List ResumeRec) (uid : Nat)
    (fh : String) (r : ResumeRec) (payload : PyDict)
    (hfind : db.find? (fun x =>
        x.user_id == uid && x.file_hash == fh && x.status == "analyzed") = some r)
    (hpay : r.analysis_result = some payload)
    (hne : payload ≠ [])
    (hmiss : dictContainsKey payload "ats_score" = false) :
    getCachedResume db uid fh = none := by
  unfold getCachedResume
  have hie : payload.isEmpty = false := by
    cases payload with
    | nil => exact absurd rfl hne
    | cons p rest => rfl
  rw [hfind]
  simp [hpay, hie, hmiss]

/-- C5 witness: a row whose payload holds `strengths` but no `ats_score` is
invalidated on lookup. -/
theorem c5_nonempty_stale_payload_invalidated_witness :
    getCachedResume [c5StaleEntry] 7 "cafe11" = none :=
  c5_nonempty_stale_payload_invalidated [c5StaleEntry] 7 "cafe11" c5StaleEntry
    [("strengths", .jarr [.jstr "s"])] rfl rfl (List.cons_ne_nil _ _) (by decide)

/-- C4: for an operation failing `k` times then succeeding (under the
retry-on-any-exception policy of `retry_with_backoff`): with
`max_attempts > k` the decorated call returns the success value after
exactly `k+1` invocations; with `1 ≤ max_attempts ≤ k` it raises tenacity's
`RetryError` wrapping the last attempt's exception after exactly
`max_attempts` invocations; `max_attempts = 1` means a single attempt whose
failure surfaces immediately (wrapped). -/
theorem c4_retry_attempt_counting {α : Type} (op : Nat → Except PyErr α) (a : α)
    (err : Nat → PyErr) (k maxAttempts : Nat) (multiplier mn mx : ℚ)
    (hop : ∀ n, op n = if n ≤ k then .error (err n) else .ok a) :
    (k < maxAttempts →
      (retryExecute op maxAttempts multiplier mn mx).result = .ok a ∧
      (retryExecute op maxAttempts multiplier mn mx).calls = k + 1) ∧
    (1 ≤ maxAttempts → maxAttempts ≤ k →
      (retryExecute op maxAttempts multiplier mn mx).result =
        .error (.retryFailureErr (err maxAttempts)) ∧
      (retryExecute op maxAttempts multiplier mn mx).calls = maxAttempts) ∧
    (maxAttempts = 1 → 1 ≤ k →
      (retryExecute op maxAttempts multiplier mn mx).result =
        .error (.retryFailureErr (err 1)) ∧
      (retryExecute op maxAttempts multiplier mn mx).calls = 1) := by
  refine ⟨?_, ?_, ?_⟩
  · intro hk
    have hok : op (k + 1) = .ok a := by
      rw [hop, if_neg (by omega)]
    have h := retryAux_ok_of op maxAttempts multiplier mn mx a err (k + 1)
      (by omega) hok maxAttempts 1 (by omega) (by omega)
      (fun i h1 h2 => by rw [hop, if_pos (by omega)])
    unfold retryExecute
    exact ⟨h.1, by omega⟩
  · intro h1 h2
    have h := retryAux_exhausts op maxAttempts multiplier mn mx err
      (fun i hi => by rw [hop, if_pos (by omega)]) maxAttempts 1
      (by omega) (by omega) (by omega)
    unfold retryExecute
    exact ⟨h.1, by omega⟩
  · intro h1 h2
    subst h1
    have h := retryAux_exhausts op 1 multiplier mn mx err
      (fun i hi => by rw [hop, if_pos (by omega)]) 1 1
      (by omega) (by omega) (by omega)
    unfold retryExecute
    exact ⟨h.1, by omega⟩

/-- C4 witness: the flaky operation failing twice then returning 7 —
with three attempts it succeeds on the third call; with one attempt it
surfaces the wrapped failure immediately. -/
theorem c4_retry_attempt_counting_witness :
    ((retryExecute c4Op 3 2 1 8).result = .ok 7 ∧
      (retryExecute c4Op 3 2 1 8).calls = 3) ∧
    ((retryExecute c4Op 1 2 1 8).result =
        .error (.retryFailureErr (.valueError "transient")) ∧
      (retryExecute c4Op 1 2 1 8).calls = 1) := by
  constructor
  · exact (c4_retry_attempt_counting c4Op 7 (fun _ => .valueError "transient") 2 3
      2 1 8 (fun n => rfl)).1 (by omega)
  · exact (c4_retry_attempt_counting c4Op 7 (fun _ => .valueError "transient") 2 1
      2 1 8 (fun n => rfl)).2.2 rfl (by omega)

/-- C2 counterexample: `"[]"` is valid JSON missing every required field, yet
`_parse_analysis_response` raises instead of returning a backfilled value:
the backfill loop executes `analysis["strengths"] = []` on a decoded list,
a `TypeError` that only the `json.JSONDecodeError` handler below it cannot
catch.  The claim's "never raises, returns a dict with every required key"
is therefore false as stated. -/
theorem c2_normalize_raises_on_json_array :
    parseAnalysisResponse "[]" =
      .error (.typeError "list indices must be integers or slices, not str") := rfl

/-- C2 (amended): whenever the fence-stripped text fails JSON decoding or
decodes to a JSON object — every case the claim enumerates except non-object
JSON documents — `_parse_analysis_response` returns, without raising, an
object containing all six required keys (`strengths`, `weaknesses`,
`recommendations`, `suitable_roles`, `skills`, `experience_years`).  Inputs
decoding to non-object JSON (a list, string, number, boolean or null) can
raise `TypeError` instead, as the counterexample shows. -/
theorem c2_normalize_total_on_objects_and_garbage (s : String)
    (h : decodesToObjectOrFails s = true) :
    ∃ d, parseAnalysisResponse s = .ok (.jobj d) ∧
      ∀ f ∈ requiredAnalysisKeys, dictContainsKey d f = true := by
  unfold decodesToObjectOrFails at h
  unfold parseAnalysisResponse
  cases hj : json_loads (stripFences s) with
  | error e =>
    refine ⟨fallbackAnalysis (pyErrStr e), rfl, ?_⟩
    intro f hf
    simp [requiredAnalysisKeys, required_fields] at hf
    rcases hf with rfl | rfl | rfl | rfl | rfl | rfl <;> rfl
  | ok v =>
    rw [hj] at h
    cases v with
    | jobj kvs =>
      obtain ⟨d1, e1, hin1, hmono1⟩ := ensureFieldJV_jobj kvs "strengths" (.jarr [])
      obtain ⟨d2, e2, hin2, hmono2⟩ := ensureFieldJV_jobj d1 "weaknesses" (.jarr [])
      obtain ⟨d3, e3, hin3, hmono3⟩ := ensureFieldJV_jobj d2 "recommendations" (.jarr [])
      obtain ⟨d4, e4, hin4, hmono4⟩ := ensureFieldJV_jobj d3 "suitable_roles" (.jarr [])
      obtain ⟨d5, e5, hin5, hmono5⟩ := ensureFieldJV_jobj d4 "skills" (.jarr [])
      obtain ⟨d6, e6, hin6, hmono6⟩ := ensureFieldJV_jobj d5 "experience_years" (.jnum 0)
      refine ⟨d6, ?_, ?_⟩
      · simp only [e1, e2, e3, e4, e5, e6]
      · intro f hf
        simp [requiredAnalysisKeys, required_fields] at hf
        rcases hf with rfl | rfl | rfl | rfl | rfl | rfl
        · exact hmono6 _ (hmono5 _ (hmono4 _ (hmono3 _ (hmono2 _ hin1))))
        · exact hmono6 _ (hmono5 _ (hmono4 _ (hmono3 _ hin2)))
        · exact hmono6 _ (hmono5 _ (hmono4 _ hin3))
        · exact hmono6 _ (hmono5 _ hin4)
        · exact hmono6 _ hin5
        · exact hin6
    | jnull => simp [evaluateWithGemini, hj] at h
    | jbool b => simp [evaluateWithGemini, hj] at h
    | jnum q => simp [evaluateWithGemini, hj] at h
    | jnan => simp [evaluateWithGemini, hj] at h
    | jinf n => simp [evaluateWithGemini, hj] at h
    | jstr t => simp [evaluateWithGemini, hj] at h
    | jarr xs => simp [evaluateWithGemini, hj] at h

set_option maxRecDepth 40000 in
/-- C2 witness: a fenced, field-poor object response is normalized into an
object carrying all six required keys. -/
theorem c2_normalize_total_witness :
    ∃ d, parseAnalysisResponse c2FencedInput = .ok (.jobj d) ∧
      ∀ f ∈ requiredAnalysisKeys, dictContainsKey d f = true :=
  c2_normalize_total_on_objects_and_garbage c2FencedInput (by decide)

/-- C6: when the external model raises on every attempt, the upload pipeline
(cache miss, valid file, text extracted) makes exactly 3 calls
(`max_attempts = 3`), appends a row in status `failed` whose error message is
the non-empty `"Analysis failed: RetryError[...]"`, re-raises, and stores no
cache entry: a subsequent lookup for the same (owner, fingerprint) still
misses, because the lookup only matches `analyzed` rows. -/
theorem c6_exhaustion_marks_failed_no_cache (db : List ResumeRec) (nextId : Nat)
    (gen : Nat → Except PyErr String) (err : Nat → PyErr) (extractedText : String)
    (analyzedAt : JValue) (modelUsed : String) (file : UploadedFile) (userId : Nat)
    (hgen : ∀ n, gen n = .error (err n))
    (hvalid : validateFile file = true)
    (hsize : file.content.length ≤ maxUploadBytes)
    (hmiss : getCachedResume db userId (compute_file_hash file.content) = none) :
    uploadAndAnalyzeResume db nextId gen (.ok extractedText) analyzedAt modelUsed file userId =
      ⟨db ++ [⟨nextId, userId, compute_file_hash file.content, "failed", none,
          some ("Analysis failed: " ++ pyErrStr (.retryFailureErr (err 3)))⟩],
        .error (.retryFailureErr (err 3)), 3⟩ ∧
    ("Analysis failed: " ++ pyErrStr (.retryFailureErr (err 3))) ≠ "" ∧
    getCachedResume (db ++ [⟨nextId, userId, compute_file_hash file.content, "failed", none,
        some ("Analysis failed: " ++ pyErrStr (.retryFailureErr (err 3)))⟩]) userId
      (compute_file_hash file.content) = none := by
  have hop : ∀ n, analyzeOp gen analyzedAt modelUsed n = .error (err n) := by
    intro n
    unfold analyzeOp
    rw [hgen n]
  have hrun := retryAux_exhausts (analyzeOp gen analyzedAt modelUsed) 3 2 1 8 err
    (fun i _ => hop i) 3 1 (by omega) (by omega) (by omega)
  have hsz : ¬ maxUploadBytes < file.content.length := by omega
  refine ⟨?_, ?_, ?_⟩
  · unfold uploadAndAnalyzeResume retryExecute
    rw [hvalid]
    simp only [Bool.not_true, Bool.false_eq_true, if_false, hmiss, hsz, ite_false,
      hrun.1, hrun.2]
  · exact append_ne_empty_left _ _ (by decide)
  · exact getCachedResume_append_not_analyzed db
      ⟨nextId, userId, compute_file_hash file.content, "failed", none,
        some ("Analysis failed: " ++ pyErrStr (.retryFailureErr (err 3)))⟩
      userId (compute_file_hash file.content) (by intro hcon; simp at hcon) hmiss

/-- C6 witness: the scenario file with an always-raising model, from an empty
table. -/
theorem c6_exhaustion_marks_failed_no_cache_witness :
    uploadAndAnalyzeResume [] 1 c6Gen (.ok "hello") (.jnum 0) "gemini-1.5-pro" c1File 42 =
      ⟨[⟨1, 42, compute_file_hash c1File.content, "failed", none,
          some ("Analysis failed: " ++ pyErrStr (.retryFailureErr (c6Err 3)))⟩],
        .error (.retryFailureErr (c6Err 3)), 3⟩ ∧
    ("Analysis failed: " ++ pyErrStr (.retryFailureErr (c6Err 3))) ≠ "" ∧
    getCachedResume [⟨1, 42, compute_file_hash c1File.content, "failed", none,
        some ("Analysis failed: " ++ pyErrStr (.retryFailureErr (c6Err 3)))⟩] 42
      (compute_file_hash c1File.content) = none := by
  have h := c6_exhaustion_marks_failed_no_cache [] 1 c6Gen c6Err "hello"
    (.jnum 0) "gemini-1.5-pro" c1File 42 (fun n => rfl) (by decide) (by decide) rfl
  simpa using h

set_option maxRecDepth 40000 in
/-- C7: every evaluation `_evaluate_with_gemini` returns carries a score in
`[0, 100]` — the decode-failure fallback scores 60, and the success path
clamps with `min(100, max(0, int(...)))`; in particular a decoded score of
150 comes back as 100 and one of -20 as 0. -/
theorem c7_score_clamped :
    (∀ resp ev, evaluateWithGemini resp = .ok ev → 0 ≤ ev.score ∧ ev.score ≤ 100) ∧
    evalScoreOf (evaluateWithGemini c7Resp150) = some 100 ∧
    evalScoreOf (evaluateWithGemini c7RespNeg20) = some 0 := by
  refine ⟨?_, by decide, by decide⟩
  intro resp ev h
  cases hj : json_loads (extractFenced (pyStrip resp)) with
  | error e =>
    simp only [evaluateWithGemini, hj, Except.ok.injEq] at h
    subst h
    constructor <;> norm_num
  | ok v =>
    cases v with
    | jobj d =>
      simp only [evaluateWithGemini, hj] at h
      cases hi : pyInt (dictGet d "score" (.jnum 50)) with
      | error e => rw [hi] at h; simp at h
      | ok i =>
        rw [hi] at h
        cases hs1 : pySliceTake 5 (dictGet d "strengths" (.jarr [])) with
        | error e => rw [hs1] at h; simp at h
        | ok st =>
          rw [hs1] at h
          cases hs2 : pySliceTake 5 (dictGet d "improvements" (.jarr [])) with
          | error e => rw [hs2] at h; simp at h
          | ok im =>
            rw [hs2] at h
            simp only [Except.ok.injEq] at h
            subst h
            constructor
            · exact le_min (by norm_num) (le_max_left 0 i)
            · exact min_le_left 100 _
    | jnull => simp [evaluateWithGemini, hj] at h
    | jbool b => simp [evaluateWithGemini, hj] at h
    | jnum q => simp [evaluateWithGemini, hj] at h
    | jnan => simp [evaluateWithGemini, hj] at h
    | jinf n => simp [evaluateWithGemini, hj] at h
    | jstr t => simp [evaluateWithGemini, hj] at h
    | jarr xs => simp [evaluateWithGemini, hj] at h

set_option maxRecDepth 40000 in
/-- C7 witness: the universal clamp applied at the concrete decoded score
150 — the returned evaluation exists and scores within `[0, 100]`. -/
theorem c7_score_clamped_witness :
    ∃ ev, evaluateWithGemini c7Resp150 = .ok ev ∧ 0 ≤ ev.score ∧ ev.score ≤ 100 := by
  have hsc : evalScoreOf (evaluateWithGemini c7Resp150) = some 100 := by decide
  cases hev : evaluateWithGemini c7Resp150 with
  | error e => simp [evalScoreOf, hev] at hsc
  | ok ev => exact ⟨ev, rfl, c7_score_clamped.1 c7Resp150 ev hev⟩

/-- C10: when the model response fails JSON parsing, `generate_interview`
still ends `ready` on the canned fallback bank — but that bank holds only 5
questions, so every requested count in 6..10 (fixed by the clamp
`max(1, min(10, question_count))`) yields exactly 5 questions, fewer than
requested. -/
theorem c10_fallback_bank_smaller_than_request (qcReq : Int)
    (resp jobTitle language : String) (h6 : 6 ≤ qcReq) (h10 : qcReq ≤ 10)
    (hparse : ∃ m, json_loads (extractFenced (pyStrip resp)) = .error m) :
    generateInterviewOutcome resp qcReq jobTitle language =
      ⟨"ready", some (getFallbackQuestions jobTitle (max 1 (min 10 qcReq)).toNat language),
        none⟩ ∧
    (getFallbackQuestions jobTitle (max 1 (min 10 qcReq)).toNat language).length = 5 ∧
    (5 : Int) < qcReq := by
  obtain ⟨m, hm⟩ := hparse
  refine ⟨?_, ?_, by omega⟩
  · simp only [generateInterviewOutcome, generateQuestionsFromResponse, hm]
  · rw [getFallbackQuestions_length]
    omega

set_option maxRecDepth 40000 in
/-- C10 witness: an unparseable response with a request for 7 questions ends
`ready` with only the 5 canned questions. -/
theorem c10_fallback_bank_smaller_than_request_witness :
    generateInterviewOutcome "oops" 7 "Engineer" "ko" =
      ⟨"ready", some (getFallbackQuestions "Engineer" (max 1 (min 10 (7 : Int))).toNat "ko"),
        none⟩ ∧
    (getFallbackQuestions "Engineer" (max 1 (min 10 (7 : Int))).toNat "ko").length = 5 ∧
    (5 : Int) < 7 :=
  c10_fallback_bank_smaller_than_request 7 "oops" "Engineer" "ko" (by omega) (by omega)
    ⟨.jsonDecodeError "Expecting value", rfl⟩
